import Mathlib

/-!
Verification development for the Doodle client Game Session Manager
(`doodle-revamp/client/src/services/SocketGameManager.ts` together with the
interfaces in `doodle-revamp/client/src/interfaces/GameManager.ts`).

The TypeScript class is embedded as a pure state-transition model: every
public method and inbound socket handler becomes a Lean function from a
`ManagerState` to a `ManagerState` paired with the list of observable
`Effect`s it produces (wire messages emitted, subscriber callbacks invoked,
timers scheduled or cancelled, promises settled).  Machine timestamps and
opaque `details` payloads of errors are elided (wall-clock data); everything
else follows the source line by line.
-/

namespace Doodle

/-- Error codes, from the `GameErrorCode` enum in `interfaces/GameManager.ts`. -/
inductive GameErrorCode where
  | CONNECTION_FAILED
  | CONNECTION_TIMEOUT
  | CONNECTION_LOST
  | SERVER_UNREACHABLE
  | ROOM_NOT_FOUND
  | ROOM_FULL
  | INVALID_ROOM_CODE
  | PLAYER_NOT_FOUND
  | INVALID_GAME_STATE
  | UNAUTHORIZED_ACTION
  | INVALID_PLAYER_NAME
  | INVALID_DRAWING_DATA
  | INVALID_VOTE
  | RATE_LIMITED
  | TOO_MANY_REQUESTS
  | UNKNOWN_ERROR
  deriving DecidableEq, Repr

/-- Structure `GameError` from `interfaces/GameManager.ts` (the `timestamp` and the opaque
`details` fields are elided: wall-clock / untyped data). -/
structure GameError where
  code : GameErrorCode
  message : String
  recoverable : Bool
  deriving DecidableEq, Repr

/-- Constructor `createGameError` from `interfaces/GameManager.ts` (default `recoverable`
is `true` at call sites that omit it; here every call site passes it
explicitly, as the source does for all the calls we model). -/
def createGameError (code : GameErrorCode) (message : String)
    (recoverable : Bool) : GameError :=
  { code := code, message := message, recoverable := recoverable }

/-- Connection status union type of `SocketGameManager.connectionStatus`. -/
inductive ConnStatus where
  | connecting
  | connected
  | disconnected
  | error
  deriving DecidableEq, Repr

/-- The `gamePhase` union type of `GameState`. -/
inductive GamePhase where
  | lobby
  | voting
  | drawing
  | judging
  | results
  deriving DecidableEq, Repr

/-- Structure `Player` from `interfaces/GameManager.ts`. -/
structure Player where
  id : String
  name : String
  isHost : Bool
  isConnected : Bool
  hasVoted : Bool
  hasSubmittedDrawing : Bool
  score : Int
  deriving DecidableEq, Repr

/-- Structure `GameResult` from `interfaces/GameManager.ts`. -/
structure GameResult where
  playerId : String
  playerName : String
  rank : Nat
  score : Int
  feedback : String
  canvasData : String
  deriving DecidableEq, Repr

/-- Structure `GameState` from `interfaces/GameManager.ts`.  `wordOptions` is modelled as
an `Option` because the runtime guard `this.gameState?.wordOptions` in
`voteForWord` treats the field as possibly absent (a JavaScript `undefined`);
`some []` corresponds to the present-but-empty array, which is truthy in
JavaScript.  `voteCounts` (a string-keyed record) is an association list. -/
structure GameState where
  roomCode : String
  isConnected : Bool
  connectionStatus : ConnStatus
  players : List Player
  currentPlayer : Option Player
  hostId : String
  playerCount : Nat
  maxPlayers : Nat
  gamePhase : GamePhase
  wordOptions : Option (List String)
  voteCounts : List (String × Nat)
  chosenWord : String
  timeRemaining : Int
  drawingTimeLimit : Nat
  submittedDrawings : Nat
  results : List GameResult
  deriving DecidableEq, Repr

/-- A `Partial GameState` as used by `updateGameState(newState)`: every field
optional; an absent field leaves the base value unchanged (object spread). -/
structure PartialGameState where
  roomCode : Option String := none
  isConnected : Option Bool := none
  connectionStatus : Option ConnStatus := none
  players : Option (List Player) := none
  currentPlayer : Option (Option Player) := none
  hostId : Option String := none
  playerCount : Option Nat := none
  maxPlayers : Option Nat := none
  gamePhase : Option GamePhase := none
  wordOptions : Option (List String) := none
  voteCounts : Option (List (String × Nat)) := none
  chosenWord : Option String := none
  timeRemaining : Option Int := none
  drawingTimeLimit : Option Nat := none
  submittedDrawings : Option Nat := none
  results : Option (List GameResult) := none
  deriving Repr

/-- Field-wise last-writer-wins merge of a partial state onto a base state:
the spread `{ ...base, ...p }`. -/
def applyPartial (base : GameState) (p : PartialGameState) : GameState :=
  { roomCode := p.roomCode.getD base.roomCode
    isConnected := p.isConnected.getD base.isConnected
    connectionStatus := p.connectionStatus.getD base.connectionStatus
    players := p.players.getD base.players
    currentPlayer := p.currentPlayer.getD base.currentPlayer
    hostId := p.hostId.getD base.hostId
    playerCount := p.playerCount.getD base.playerCount
    maxPlayers := p.maxPlayers.getD base.maxPlayers
    gamePhase := p.gamePhase.getD base.gamePhase
    wordOptions := match p.wordOptions with
      | some v => some v
      | none => base.wordOptions
    voteCounts := p.voteCounts.getD base.voteCounts
    chosenWord := p.chosenWord.getD base.chosenWord
    timeRemaining := p.timeRemaining.getD base.timeRemaining
    drawingTimeLimit := p.drawingTimeLimit.getD base.drawingTimeLimit
    submittedDrawings := p.submittedDrawings.getD base.submittedDrawings
    results := p.results.getD base.results }

/-- Method `createDefaultGameState` from `SocketGameManager.ts` (lines 351-370); the
`connectionStatus` field copies the manager's current status. -/
def createDefaultGameState (cs : ConnStatus) : GameState :=
  { roomCode := ""
    isConnected := false
    connectionStatus := cs
    players := []
    currentPlayer := none
    hostId := ""
    playerCount := 0
    maxPlayers := 8
    gamePhase := GamePhase.lobby
    wordOptions := some []
    voteCounts := []
    chosenWord := ""
    timeRemaining := 0
    drawingTimeLimit := 60
    submittedDrawings := 0
    results := [] }

/-- The three flavours of `setTimeout` call in the source: the reconnection
backoff timer stored in `reconnectTimer`, the host-game connection-timeout
timer stored in `connectionTimer`, and the anonymous join-game timeout
created at line 599 of `SocketGameManager.ts`, which is stored nowhere. -/
inductive TimerKind where
  | reconnectBackoff
  | connectionTimeout
  | joinTimeout
  deriving DecidableEq, Repr

/-- A scheduled timer: identity, which `setTimeout` created it, and delay (ms). -/
structure Timer where
  id : Nat
  kind : TimerKind
  delay : ℚ
  deriving DecidableEq, Repr

/-- Direction tag of `NetworkMessage`. -/
inductive MsgDirection where
  | sent
  | received
  deriving DecidableEq, Repr

/-- Structure `NetworkMessage` from `interfaces/GameManager.ts` (timestamp and untyped
`data` elided). -/
structure NetworkMessage where
  msgType : String
  direction : MsgDirection
  deriving DecidableEq, Repr

/-- Observable effects of a manager transition:
wire emissions, subscriber callbacks, tie-breaker callbacks, the async
auto-recovery kick-off, timer scheduling/cancellation, transport connect
attempts, and promise settlement of the in-flight `hostGame`/`joinGame`
call.  A promise settlement is delivered to the awaiting caller, not to the
`onStateChange`/`onError` subscribers. -/
inductive Effect where
  | emit (eventType : String) (payload : List (String × String))
  | errorCallback (subscriber : Nat) (e : GameError)
  | stateCallback (subscriber : Nat) (gs : GameState)
  | tieDetected (tiedWords : List String) (pendingWinner : String)
  | tieResolved (chosenWord : String)
  | autoRecovery (e : GameError)
  | scheduleTimer (id : Nat) (delay : ℚ)
  | cancelTimer (id : Nat)
  | connectAttempt
  | promiseResolve (value : String)
  | promiseReject (e : GameError)
  | replayIntent (isHost : Bool) (playerName : String) (roomCode : String)
  deriving DecidableEq, Repr

/-- Modelled from the spec: the client configuration module
(`config/environment`) is absent from the sources; its fields are taken from
the constructor usage (`serverUrl`, `reconnectAttempts`, `reconnectDelay`,
`socketTimeout`) plus the two dials the spec names in sections 6 and 7 that
have no counterpart in the constructor: the backoff growth factor and the
error-throttle frequency threshold. -/
structure Config where
  serverUrl : String
  reconnectAttempts : Nat
  reconnectDelay : ℚ
  socketTimeout : ℚ
  growthFactor : ℚ
  errorThrottleThreshold : Nat
  deriving DecidableEq, Repr

/-- The mutable fields of the `SocketGameManager` class, plus the
environment's view of pending timers (`pendingTimers`, `nextTimerId`) and the
spec-modelled `ErrorHandler` frequency counts (`errorCounts`,
`errorThrottleThreshold`).  `socketExists` models `socket !== null` and
`socketConnected` models `socket.connected`.  Callback sets are sets of
opaque subscriber identifiers. -/
structure ManagerState where
  socketExists : Bool
  socketConnected : Bool
  gameState : Option GameState
  isHostPlayer : Bool
  stateChangeCallbacks : List Nat
  errorCallbacks : List Nat
  tieBreakerCallbacksSet : Bool
  playerName : String
  currentRoomCode : String
  lastError : Option GameError
  networkMessages : List NetworkMessage
  connectionStatus : ConnStatus
  reconnectAttempts : Nat
  maxReconnectAttempts : Nat
  reconnectDelay : ℚ
  connectionTimeoutMs : ℚ
  reconnectTimer : Option Timer
  connectionTimer : Option Timer
  isDestroyed : Bool
  errorCounts : List (GameErrorCode × Nat)
  errorThrottleThreshold : Nat
  pendingTimers : List Timer
  nextTimerId : Nat
  deriving DecidableEq, Repr

/-- The constructor of `SocketGameManager` (lines 57-72): registers the single
initial `onStateChange` subscriber (id 0), stores the tie-breaker callbacks
flag, copies `reconnectAttempts`, `reconnectDelay` and `socketTimeout` from
the configuration, and calls `initializeSocket` (which creates the socket
with `autoConnect: false`, so the socket exists but is not connected). -/
def initManager (cfg : Config) (hasTieCallbacks : Bool) : ManagerState :=
  { socketExists := true
    socketConnected := false
    gameState := none
    isHostPlayer := false
    stateChangeCallbacks := [0]
    errorCallbacks := []
    tieBreakerCallbacksSet := hasTieCallbacks
    playerName := ""
    currentRoomCode := ""
    lastError := none
    networkMessages := []
    connectionStatus := ConnStatus.disconnected
    reconnectAttempts := 0
    maxReconnectAttempts := cfg.reconnectAttempts
    reconnectDelay := cfg.reconnectDelay
    connectionTimeoutMs := cfg.socketTimeout
    reconnectTimer := none
    connectionTimer := none
    isDestroyed := false
    errorCounts := []
    errorThrottleThreshold := cfg.errorThrottleThreshold
    pendingTimers := []
    nextTimerId := 0 }

/-! ## Validation layer (spec-modelled where the source file is missing) -/

/-- Modelled from the spec: `utils/validation.ts` is absent from the sources
(only its import in `SocketGameManager.ts` and its tests survive).  Section
4.1: `validatePlayerName(name)` fails with `InvalidPlayerName` when the name
is empty, exceeds a fixed maximum length, or contains only whitespace.  The
maximum length constant 15 is taken from the surviving test (a 16-character
name is rejected). -/
def validatePlayerName (name : String) : Option GameError :=
  if name = "" ∨ 15 < name.data.length ∨ name.data.all (fun c => c = ' ') then
    some (createGameError GameErrorCode.INVALID_PLAYER_NAME
      "Invalid player name" true)
  else none

/-- Modelled from the spec: `utils/validation.ts` is absent from the sources.
Section 4.1: `validateRoomCode(code)` fails with `InvalidRoomCode` unless the
code is uppercase alphanumeric of the fixed length 6 (the length/charset the
remote authority produces). -/
def validateRoomCode (code : String) : Option GameError :=
  if code.data.length = 6 ∧ code.data.all (fun c => c.isUpper ∨ c.isDigit) then
    none
  else some (createGameError GameErrorCode.INVALID_ROOM_CODE
    "Invalid room code" true)

/-- Modelled from the spec: `utils/validation.ts` is absent from the sources.
Section 4.1: `validateVote(word, options)` fails with `InvalidVote` when
`word` is not a member of the currently-announced `wordOptions`; validation
errors default to `recoverable = true` (section 7). -/
def validateVote (word : String) (options : List String) : Option GameError :=
  if word ∈ options then none
  else some (createGameError GameErrorCode.INVALID_VOTE
    "Invalid vote: word not in options" true)

/-! ## Error handling -/

/-- Modelled from the spec: `utils/errorHandling.ts` (the `ErrorHandler`
class) is absent from the sources.  Section 7's taxonomy: the Connection and
Throttling categories are auto-retry eligible; validation, game-logic and
unknown errors are never auto-retried. -/
def autoRetryEligible : GameErrorCode → Bool
  | GameErrorCode.CONNECTION_FAILED => true
  | GameErrorCode.CONNECTION_TIMEOUT => true
  | GameErrorCode.CONNECTION_LOST => true
  | GameErrorCode.SERVER_UNREACHABLE => true
  | GameErrorCode.RATE_LIMITED => true
  | GameErrorCode.TOO_MANY_REQUESTS => true
  | _ => false

/-- Frequency count of a given error code recorded so far. -/
def countFor : List (GameErrorCode × Nat) → GameErrorCode → Nat
  | [], _ => 0
  | p :: rest, c => if p.1 = c then p.2 else countFor rest c

/-- Record one more occurrence of an error code. -/
def bumpCount (counts : List (GameErrorCode × Nat)) (c : GameErrorCode) :
    List (GameErrorCode × Nat) :=
  match counts with
  | [] => [(c, 1)]
  | p :: rest => if p.1 = c then (p.1, p.2 + 1) :: rest
                 else p :: bumpCount rest c

/-- Modelled from the spec: `ErrorHandler.shouldThrottleError` is absent from
the sources.  Section 7: errors beyond a configured frequency threshold are
locally suppressed from re-reaching subscribers. -/
def shouldThrottleError (st : ManagerState) (e : GameError) : Bool :=
  st.errorThrottleThreshold < countFor st.errorCounts e.code

/-- Method `logNetworkMessage` (lines 420-434): append to the diagnostic buffer and
keep only the last 100 entries. -/
def logNetworkMessage (st : ManagerState) (msgType : String)
    (dir : MsgDirection) : ManagerState :=
  let msgs := st.networkMessages ++ [{ msgType := msgType, direction := dir }]
  { st with networkMessages :=
      if 100 < msgs.length then msgs.drop (msgs.length - 100) else msgs }

/-- Method `handleError` (lines 372-396): store `lastError`, record the error with
the `ErrorHandler` (`processError`), suppress it entirely when throttled,
kick off asynchronous auto-recovery when the error is recoverable and
auto-retry eligible, and finally deliver it to every `onError` subscriber
(each inside its own try/catch). -/
def handleError (st : ManagerState) (e : GameError) :
    ManagerState × List Effect :=
  let st := { st with lastError := some e,
                      errorCounts := bumpCount st.errorCounts e.code }
  if shouldThrottleError st e then (st, [])
  else
    let recovery := if e.recoverable ∧ autoRetryEligible e.code then
        [Effect.autoRecovery e] else []
    (st, recovery ++ st.errorCallbacks.map (fun i => Effect.errorCallback i e))

/-! ## State store -/

/-- Method `updateGameState` (lines 333-349): merge default state, existing state
and the partial update (last-writer-wins per field), then notify every
`onStateChange` subscriber with the merged state. -/
def updateGameState (st : ManagerState) (p : PartialGameState) :
    ManagerState × List Effect :=
  let base := st.gameState.getD (createDefaultGameState st.connectionStatus)
  let merged := applyPartial base p
  ({ st with gameState := some merged },
   st.stateChangeCallbacks.map (fun i => Effect.stateCallback i merged))

/-! ## Timers and the reconnection policy -/

/-- Method `clearTimers` (lines 147-157): cancel the timers tracked in
`reconnectTimer` and `connectionTimer`.  Anonymous timers (the join-game
timeout) are tracked nowhere, so this function cannot reach them. -/
def clearTimers (st : ManagerState) : ManagerState × List Effect :=
  let step1 : ManagerState × List Effect :=
    match st.reconnectTimer with
    | some t => ({ st with reconnectTimer := none,
                           pendingTimers := st.pendingTimers.erase t },
                 [Effect.cancelTimer t.id])
    | none => (st, [])
  let st1 := step1.1
  let step2 : ManagerState × List Effect :=
    match st1.connectionTimer with
    | some t => ({ st1 with connectionTimer := none,
                            pendingTimers := st1.pendingTimers.erase t },
                 [Effect.cancelTimer t.id])
    | none => (st1, [])
  (step2.1, step1.2 ++ step2.2)

/-- Method `attemptReconnection` (lines 87-124): when destroyed or the attempt
counter has reached the maximum, raise the non-recoverable
`CONNECTION_FAILED` error (when the counter condition holds) and schedule
nothing; otherwise increment the counter and schedule the backoff timer with
delay `reconnectDelay * 1.5 ^ (attempt - 1)` (the literal `1.5` at line
101). -/
def attemptReconnection (st : ManagerState) : ManagerState × List Effect :=
  if st.isDestroyed ∨ st.maxReconnectAttempts ≤ st.reconnectAttempts then
    if st.maxReconnectAttempts ≤ st.reconnectAttempts then
      handleError st (createGameError GameErrorCode.CONNECTION_FAILED
        "Maximum reconnection attempts reached" false)
    else (st, [])
  else
    let attempts := st.reconnectAttempts + 1
    let delay := st.reconnectDelay * (3 / 2 : ℚ) ^ (attempts - 1)
    let t : Timer := { id := st.nextTimerId, kind := TimerKind.reconnectBackoff,
                       delay := delay }
    ({ st with reconnectAttempts := attempts,
               reconnectTimer := some t,
               pendingTimers := t :: st.pendingTimers,
               nextTimerId := st.nextTimerId + 1 },
     [Effect.scheduleTimer t.id delay])

/-- Body of the `setTimeout` callback inside `attemptReconnection` (lines
105-123): bail out when destroyed; otherwise go to `connecting`, notify,
re-initialize the socket, and when a room code and player name are held,
replay the original host/join intent (`rejoinRoom`, lines 126-145, which
calls `hostGame(playerName)` when the local player hosted and
`joinGame(playerName, currentRoomCode)` otherwise). -/
def reconnectTimerBody (st : ManagerState) : ManagerState × List Effect :=
  if st.isDestroyed then (st, [])
  else
    let st := { st with connectionStatus := ConnStatus.connecting }
    let upd := updateGameState st
      { connectionStatus := some ConnStatus.connecting }
    let st := upd.1
    let st := { st with socketExists := true, socketConnected := false }
    if st.currentRoomCode ≠ "" ∧ st.playerName ≠ "" then
      (st, upd.2 ++ [Effect.replayIntent st.isHostPlayer st.playerName
                       st.currentRoomCode])
    else (st, upd.2)

/-- Firing a scheduled timer: a cancelled timer (no longer pending) does
nothing; a pending one is consumed and runs its body.  The host-game
connection timeout and the join-game timeout reject the in-flight promise
with `CONNECTION_TIMEOUT` (lines 467-474 and 599-606). -/
def fireTimer (st : ManagerState) (t : Timer) : ManagerState × List Effect :=
  if t ∈ st.pendingTimers then
    let st := { st with pendingTimers := st.pendingTimers.erase t }
    match t.kind with
    | TimerKind.reconnectBackoff => reconnectTimerBody st
    | TimerKind.connectionTimeout =>
        (st, [Effect.promiseReject (createGameError
          GameErrorCode.CONNECTION_TIMEOUT
          "Connection timeout while creating room" true)])
    | TimerKind.joinTimeout =>
        (st, [Effect.promiseReject (createGameError
          GameErrorCode.CONNECTION_TIMEOUT
          "Connection timeout while joining room" true)])
  else (st, [])

/-- Fire a list of timers in sequence, concatenating effects. -/
def fireTimers (st : ManagerState) : List Timer → ManagerState × List Effect
  | [] => (st, [])
  | t :: ts =>
    let step := fireTimer st t
    let rest := fireTimers step.1 ts
    (rest.1, step.2 ++ rest.2)

/-- The success continuation of `rejoinRoom` (lines 138-140): only after the
replayed host/join intent resolves does the attempt counter reset to zero. -/
def rejoinRoomSuccess (st : ManagerState) : ManagerState :=
  { st with reconnectAttempts := 0 }

/-! ## Inbound socket event handlers (`setupEventHandlers`, lines 159-331) -/

/-- The `connect` handler (lines 163-175): mark connected, reset the
reconnection attempt counter, clear the tracked timers, fold the connection
fields into the state store and log the event. -/
def onConnect (st : ManagerState) : ManagerState × List Effect :=
  let st := { st with connectionStatus := ConnStatus.connected,
                      socketConnected := true,
                      reconnectAttempts := 0 }
  let cleared := clearTimers st
  let upd := updateGameState cleared.1
    { isConnected := some true, connectionStatus := some ConnStatus.connected }
  (logNetworkMessage upd.1 "connect" MsgDirection.received,
   cleared.2 ++ upd.2)

/-- The `disconnect` handler (lines 177-192): mark disconnected, fold into
the state store, log, and attempt reconnection unless the disconnect was the
intentional local one (`io client disconnect`) or the manager is destroyed. -/
def onDisconnect (st : ManagerState) (reason : String) :
    ManagerState × List Effect :=
  let st := { st with connectionStatus := ConnStatus.disconnected,
                      socketConnected := false }
  let upd := updateGameState st
    { isConnected := some false,
      connectionStatus := some ConnStatus.disconnected }
  let st := logNetworkMessage upd.1 "disconnect" MsgDirection.received
  if reason ≠ "io client disconnect" ∧ st.isDestroyed = false then
    let rec1 := attemptReconnection st
    (rec1.1, upd.2 ++ rec1.2)
  else (st, upd.2)

/-- The `tiebreaker-started` handler (lines 285-293): invoke
`onTieDetected(tiedWords, "")` when tie-breaker callbacks are registered
(the optional-chaining call `this.tieBreakerCallbacks?.onTieDetected`).  No
phase change, no state-store write. -/
def onTiebreakerStarted (st : ManagerState) (tiedWords : List String) :
    ManagerState × List Effect :=
  if st.tieBreakerCallbacksSet then (st, [Effect.tieDetected tiedWords ""])
  else (st, [])

/-- The `tiebreaker-resolved` handler (lines 295-303): invoke the same
`onTieDetected` callback again, now carrying the server-chosen word. -/
def onTiebreakerResolved (st : ManagerState) (tiedWords : List String)
    (chosenWord : String) : ManagerState × List Effect :=
  if st.tieBreakerCallbacksSet then
    (st, [Effect.tieDetected tiedWords chosenWord])
  else (st, [])

/-- The `drawing-started` handler (lines 305-308): fold the broadcast state
into the state store.  It invokes no tie-breaker callback. -/
def onDrawingStarted (st : ManagerState) (p : PartialGameState) :
    ManagerState × List Effect :=
  updateGameState st p

/-- Scenario C event sequence: `tiebreaker-started`, then
`tiebreaker-resolved`, then the Drawing-phase broadcast, with all produced
effects concatenated in order. -/
def scenarioTieSequence (st : ManagerState) (tied : List String)
    (chosen : String) (p : PartialGameState) : ManagerState × List Effect :=
  let s1 := onTiebreakerStarted st tied
  let s2 := onTiebreakerResolved s1.1 tied chosen
  let s3 := onDrawingStarted s2.1 p
  (s3.1, s1.2 ++ s2.2 ++ s3.2)

/-! ## Public operations -/

/-- Method `startVoting` (lines 622-648): not connected raises `CONNECTION_LOST`
(recoverable); connected but not host raises `UNAUTHORIZED_ACTION`
(non-recoverable); both through `handleError` and without emitting anything;
otherwise emit `start-voting` with the room code. -/
def startVoting (st : ManagerState) : ManagerState × List Effect :=
  if ¬(st.socketExists = true ∧ st.socketConnected = true) then
    handleError st (createGameError GameErrorCode.CONNECTION_LOST
      "Cannot start voting: not connected to server" true)
  else if st.isHostPlayer = false then
    handleError st (createGameError GameErrorCode.UNAUTHORIZED_ACTION
      "Cannot start voting: only host can start voting" false)
  else
    (logNetworkMessage st "start-voting" MsgDirection.sent,
     [Effect.emit "start-voting" [("roomCode", st.currentRoomCode)]])

/-- Method `voteForWord` (lines 650-671): not connected raises `CONNECTION_LOST`;
otherwise, when the current game state exists and carries a `wordOptions`
field (the truthiness guard `this.gameState?.wordOptions`, satisfied even by
an empty array), validate the vote and raise `INVALID_VOTE` through
`handleError` on failure; when the guard passes (or is skipped), emit
`vote-word` with the room code and the word. -/
def voteForWord (st : ManagerState) (word : String) :
    ManagerState × List Effect :=
  if ¬(st.socketExists = true ∧ st.socketConnected = true) then
    handleError st (createGameError GameErrorCode.CONNECTION_LOST
      "Cannot vote: not connected to server" true)
  else
    let validation : Option GameError :=
      match st.gameState with
      | some gs =>
        match gs.wordOptions with
        | some opts => validateVote word opts
        | none => none
      | none => none
    match validation with
    | some e => handleError st e
    | none =>
      (logNetworkMessage st "vote-word" MsgDirection.sent,
       [Effect.emit "vote-word"
          [("roomCode", st.currentRoomCode), ("word", word)]])

/-- The synchronous prefix of `joinGame` (lines 555-607): validate the player
name and room code (failures are thrown to the caller), require an
initialized socket, set `playerName` and `connecting`, start the transport
connection, register the once-handlers and schedule the 10-second join
timeout — an anonymous `setTimeout` at line 599 that is stored in neither
`reconnectTimer` nor `connectionTimer`. -/
def joinGameStart (st : ManagerState) (playerName roomCode : String) :
    ManagerState × List Effect :=
  match validatePlayerName playerName with
  | some e => (st, [Effect.promiseReject e])
  | none =>
    match validateRoomCode roomCode with
    | some e => (st, [Effect.promiseReject e])
    | none =>
      if st.socketExists = false then
        (st, [Effect.promiseReject (createGameError
          GameErrorCode.CONNECTION_FAILED "Socket not initialized" false)])
      else
        let st := { st with playerName := playerName,
                            connectionStatus := ConnStatus.connecting }
        let t : Timer := { id := st.nextTimerId,
                           kind := TimerKind.joinTimeout, delay := 10000 }
        ({ st with pendingTimers := t :: st.pendingTimers,
                   nextTimerId := st.nextTimerId + 1 },
         [Effect.connectAttempt, Effect.scheduleTimer t.id 10000])

/-- The `once('error')` handler inside `joinGame` (lines 581-589): every
server-reported join failure is wrapped as a `ROOM_NOT_FOUND` error (with the
server's message, or the fallback text when that message is empty) and the
in-flight promise is rejected with it.  (The room code only enters the
elided `details` payload.) -/
def joinGameOnServerError (st : ManagerState) (serverMessage : String) :
    ManagerState × List Effect :=
  let e := createGameError GameErrorCode.ROOM_NOT_FOUND
    (if serverMessage = "" then "Failed to join room" else serverMessage) true
  (logNetworkMessage st "error" MsgDirection.received,
   [Effect.promiseReject e])

/-- Method `getCurrentPlayer` (lines 795-801): `null` without a game state or with
an empty stored player name; otherwise the first roster entry whose display
name equals the stored `playerName`. -/
def getCurrentPlayer (st : ManagerState) : Option Player :=
  match st.gameState with
  | none => none
  | some gs =>
    if st.playerName = "" then none
    else gs.players.find? (fun p => p.name = st.playerName)

/-- Method `destroy` (lines 807-838): mark destroyed, clear the tracked timers,
tear down the socket, clear every callback set and all cached state, and
reset the connection bookkeeping. -/
def destroy (st : ManagerState) : ManagerState × List Effect :=
  let st := { st with isDestroyed := true }
  let cleared := clearTimers st
  let st := cleared.1
  ({ st with socketExists := false
             socketConnected := false
             stateChangeCallbacks := []
             errorCallbacks := []
             networkMessages := []
             gameState := none
             lastError := none
             tieBreakerCallbacksSet := false
             connectionStatus := ConnStatus.disconnected
             reconnectAttempts := 0
             currentRoomCode := ""
             playerName := ""
             isHostPlayer := false },
   cleared.2)

/-! ## Helper predicates over effects -/

/-- An effect that invokes an `onStateChange` or `onError` subscriber. -/
def isCallbackEffect : Effect → Bool
  | Effect.errorCallback _ _ => true
  | Effect.stateCallback _ _ => true
  | _ => false

/-- An effect that invokes one of the two tie-breaker callbacks. -/
def isTieEffect : Effect → Bool
  | Effect.tieDetected _ _ => true
  | Effect.tieResolved _ => true
  | _ => false

/-- An effect that invokes the `onTieResolved` callback. -/
def isTieResolvedEffect : Effect → Bool
  | Effect.tieResolved _ => true
  | _ => false

/-! ## Concrete fixtures for witnesses and counterexamples -/

/-- A concrete configuration for concrete runs (the values the source uses as
its declaration-site defaults, with a spec growth factor of 2 to separate the
configured dial from the hardcoded literal). -/
def cfg0 : Config :=
  { serverUrl := "http://localhost:3001"
    reconnectAttempts := 3
    reconnectDelay := 2000
    socketTimeout := 10000
    growthFactor := 2
    errorThrottleThreshold := 5 }

/-- A freshly constructed manager with tie-breaker callbacks registered. -/
def st0 : ManagerState := initManager cfg0 true

/-- A manager whose transport is connected, with one error subscriber. -/
def stConn : ManagerState :=
  { st0 with socketConnected := true
             connectionStatus := ConnStatus.connected
             errorCallbacks := [1] }

/-! ## Supporting lemmas -/

theorem countFor_bumpCount (counts : List (GameErrorCode × Nat))
    (c : GameErrorCode) :
    countFor (bumpCount counts c) c = countFor counts c + 1 := by
  induction counts with
  | nil => simp [bumpCount, countFor]
  | cons p rest ih =>
    by_cases h : p.1 = c
    · simp [bumpCount, countFor, h]
    · simp [bumpCount, countFor, h, ih]

theorem handleError_not_throttled (st : ManagerState) (e : GameError)
    (h : countFor st.errorCounts e.code < st.errorThrottleThreshold) :
    handleError st e =
      ({ st with lastError := some e,
                 errorCounts := bumpCount st.errorCounts e.code },
       (if e.recoverable ∧ autoRetryEligible e.code then
          [Effect.autoRecovery e] else [])
         ++ st.errorCallbacks.map (fun i => Effect.errorCallback i e)) := by
  have hth : shouldThrottleError
      { st with lastError := some e,
                errorCounts := bumpCount st.errorCounts e.code } e = false := by
    simp only [shouldThrottleError]
    simp [countFor_bumpCount]
    omega
  simp [handleError, hth]

theorem emit_not_mem_errorCallbacks (l : List Nat) (e : GameError)
    (t : String) (p : List (String × String)) :
    Effect.emit t p ∉ l.map (fun i => Effect.errorCallback i e) := by
  simp

theorem filter_tie_stateCallbacks (l : List Nat) (g : GameState) :
    (l.map (fun i => Effect.stateCallback i g)).filter isTieEffect = [] := by
  induction l with
  | nil => rfl
  | cons a l ih => simp [isTieEffect, ih]

theorem countP_tieResolved_stateCallbacks (l : List Nat) (g : GameState) :
    (l.map (fun i => Effect.stateCallback i g)).countP
      (fun e => isTieResolvedEffect e) = 0 := by
  induction l with
  | nil => rfl
  | cons a l ih => simp [isTieResolvedEffect, ih, List.countP_cons]

theorem clearTimers_spec (st : ManagerState) :
    (clearTimers st).1.reconnectTimer = none
    ∧ (clearTimers st).1.connectionTimer = none
    ∧ (∀ e ∈ (clearTimers st).2, isCallbackEffect e = false)
    ∧ (clearTimers st).1.isDestroyed = st.isDestroyed
    ∧ (clearTimers st).1.stateChangeCallbacks = st.stateChangeCallbacks
    ∧ (clearTimers st).1.errorCallbacks = st.errorCallbacks
    ∧ (clearTimers st).1.reconnectAttempts = st.reconnectAttempts := by
  cases hr : st.reconnectTimer <;> cases hc : st.connectionTimer <;>
    simp_all [clearTimers, isCallbackEffect]

/-! ## Claim C1 — tie-breaker callback sequence -/

/-- The Drawing-phase broadcast payload of Scenario C. -/
def pDrawingDog : PartialGameState :=
  { gamePhase := some GamePhase.drawing, chosenWord := some "dog" }

/-- C1 counterexample: on the concrete Scenario C sequence
(`tiebreaker-started` with cat/dog/bird, `tiebreaker-resolved` choosing dog,
then the Drawing-phase broadcast), the `onTieResolved` callback is invoked
zero times, not exactly once as the claim states. -/
theorem c1_counterexample :
    ¬ ((scenarioTieSequence st0 ["cat", "dog", "bird"] "dog" pDrawingDog).2.countP
        (fun e => isTieResolvedEffect e) = 1) := by
  decide

/-- C1 (amended): for the event sequence `tiebreaker-started(tiedWords)`,
`tiebreaker-resolved(tiedWords, chosenWord)`, then a Drawing-phase state
broadcast, the `onTieDetected` callback is invoked exactly twice — first with
pending winner `""`, second with the chosen word, in that order — and the
`onTieResolved` callback is never invoked: the Drawing-phase broadcast only
folds the state into the store. -/
theorem c1_tie_sequence_callbacks (st : ManagerState) (tied : List String)
    (chosen : String) (p : PartialGameState)
    (h : st.tieBreakerCallbacksSet = true) :
    ((scenarioTieSequence st tied chosen p).2.filter isTieEffect)
      = [Effect.tieDetected tied "", Effect.tieDetected tied chosen]
    ∧ ((scenarioTieSequence st tied chosen p).2.countP
        (fun e => isTieResolvedEffect e)) = 0 := by
  simp [scenarioTieSequence, onTiebreakerStarted, onTiebreakerResolved,
    onDrawingStarted, updateGameState, h, isTieEffect, isTieResolvedEffect,
    filter_tie_stateCallbacks, countP_tieResolved_stateCallbacks,
    List.countP_cons, List.countP_append]

/-- C1 witness: the amended theorem applied to the concrete Scenario C run. -/
theorem c1_tie_sequence_callbacks_witness :
    ((scenarioTieSequence st0 ["cat", "dog", "bird"] "dog" pDrawingDog).2.filter
        isTieEffect)
      = [Effect.tieDetected ["cat", "dog", "bird"] "",
         Effect.tieDetected ["cat", "dog", "bird"] "dog"]
    ∧ ((scenarioTieSequence st0 ["cat", "dog", "bird"] "dog" pDrawingDog).2.countP
        (fun e => isTieResolvedEffect e)) = 0 :=
  c1_tie_sequence_callbacks st0 ["cat", "dog", "bird"] "dog" pDrawingDog
    (by decide)

/-! ## Claim C2 — invalid votes raise InvalidVote and send nothing -/

/-- C2: with the transport connected and `wordOptions` currently announced,
voting for a word outside the options delivers an `INVALID_VOTE` error to
every registered error subscriber (not a silent no-op) and emits no wire
message. -/
theorem c2_invalid_vote_raises (st : ManagerState) (gs : GameState)
    (opts : List String) (w : String)
    (hse : st.socketExists = true) (hsc : st.socketConnected = true)
    (hgs : st.gameState = some gs) (hopts : gs.wordOptions = some opts)
    (hw : w ∉ opts)
    (hth : countFor st.errorCounts GameErrorCode.INVALID_VOTE
            < st.errorThrottleThreshold) :
    (voteForWord st w).2 =
      st.errorCallbacks.map (fun i => Effect.errorCallback i
        (createGameError GameErrorCode.INVALID_VOTE
          "Invalid vote: word not in options" true))
    ∧ (∀ t p, Effect.emit t p ∉ (voteForWord st w).2) := by
  have hval : validateVote w opts =
      some (createGameError GameErrorCode.INVALID_VOTE
        "Invalid vote: word not in options" true) := by
    simp [validateVote, hw]
  have he := handleError_not_throttled st
    (createGameError GameErrorCode.INVALID_VOTE
      "Invalid vote: word not in options" true)
    (by simpa [createGameError] using hth)
  have heffs : (voteForWord st w).2 =
      st.errorCallbacks.map (fun i => Effect.errorCallback i
        (createGameError GameErrorCode.INVALID_VOTE
          "Invalid vote: word not in options" true)) := by
    simp only [voteForWord, hse, hsc, hgs, hopts, hval]
    rw [if_neg (by simp)]
    rw [he]
    simp [createGameError, autoRetryEligible]
  refine ⟨heffs, fun t p => ?_⟩
  rw [heffs]
  simp

/-- Game state announcing the word options cat and dog (Scenario B). -/
def gsCatDog : GameState :=
  { createDefaultGameState ConnStatus.connected with
      wordOptions := some ["cat", "dog"] }

/-- Connected manager with one error subscriber, options cat/dog announced. -/
def stC2 : ManagerState := { stConn with gameState := some gsCatDog }

/-- C2 witness: Scenario B — options cat/dog, voting for bird delivers
`INVALID_VOTE` to the one subscriber and emits nothing. -/
theorem c2_invalid_vote_raises_witness :
    (voteForWord stC2 "bird").2 =
      [Effect.errorCallback 1
        (createGameError GameErrorCode.INVALID_VOTE
          "Invalid vote: word not in options" true)]
    ∧ (∀ t p, Effect.emit t p ∉ (voteForWord stC2 "bird").2) := by
  have h := c2_invalid_vote_raises stC2 gsCatDog ["cat", "dog"] "bird"
    (by decide) (by decide) rfl rfl (by decide) (by decide)
  exact ⟨by rw [h.1]; decide, h.2⟩

/-! ## Claim C3 — exhausted reconnection attempts -/

/-- C3: once the attempt counter has reached the configured maximum, a
further reconnection trigger delivers a `CONNECTION_FAILED` error with
`recoverable = false` to every error subscriber, leaves the attempt counter
and the timer bookkeeping untouched, and schedules no further attempt. -/
theorem c3_reconnection_exhausted (st : ManagerState)
    (hmax : st.maxReconnectAttempts ≤ st.reconnectAttempts)
    (hth : countFor st.errorCounts GameErrorCode.CONNECTION_FAILED
            < st.errorThrottleThreshold) :
    (attemptReconnection st).2 =
      st.errorCallbacks.map (fun i => Effect.errorCallback i
        (createGameError GameErrorCode.CONNECTION_FAILED
          "Maximum reconnection attempts reached" false))
    ∧ (createGameError GameErrorCode.CONNECTION_FAILED
        "Maximum reconnection attempts reached" false).recoverable = false
    ∧ (attemptReconnection st).1.reconnectAttempts = st.reconnectAttempts
    ∧ (attemptReconnection st).1.reconnectTimer = st.reconnectTimer
    ∧ (attemptReconnection st).1.pendingTimers = st.pendingTimers
    ∧ (∀ i d, Effect.scheduleTimer i d ∉ (attemptReconnection st).2) := by
  have he := handleError_not_throttled st
    (createGameError GameErrorCode.CONNECTION_FAILED
      "Maximum reconnection attempts reached" false)
    (by simpa [createGameError] using hth)
  have hres : attemptReconnection st =
      handleError st (createGameError GameErrorCode.CONNECTION_FAILED
        "Maximum reconnection attempts reached" false) := by
    simp [attemptReconnection, hmax]
  rw [hres, he]
  refine ⟨by simp [createGameError, autoRetryEligible], rfl, rfl, rfl, rfl,
    fun i d => ?_⟩
  simp [createGameError, autoRetryEligible]

/-- Manager that has already used up its three configured attempts. -/
def stC3 : ManagerState :=
  { stConn with reconnectAttempts := 3, socketConnected := false }

/-- C3 witness: with `maxAttempts = 3` and three attempts consumed, the next
trigger raises the non-recoverable `CONNECTION_FAILED` to the one subscriber
and schedules nothing. -/
theorem c3_reconnection_exhausted_witness :
    (attemptReconnection stC3).2 =
      [Effect.errorCallback 1
        (createGameError GameErrorCode.CONNECTION_FAILED
          "Maximum reconnection attempts reached" false)]
    ∧ (attemptReconnection stC3).1.reconnectAttempts = 3
    ∧ (∀ i d, Effect.scheduleTimer i d ∉ (attemptReconnection stC3).2) := by
  have h := c3_reconnection_exhausted stC3 (by decide) (by decide)
  exact ⟨by rw [h.1]; decide, by rw [h.2.2.1]; decide, h.2.2.2.2.2⟩

/-! ## Claim C4 — backoff delay formula and its provenance -/

/-- The backoff-delay formula as the spec states it (section 4.4), written
from the spec's words for comparison with the source computation: both the
base delay and the growth factor are read from the configuration. -/
def specBackoffDelay (cfg : Config) (n : Nat) : ℚ :=
  cfg.reconnectDelay * cfg.growthFactor ^ (n - 1)

/-- C4 counterexample: with a configured growth factor of 2, the timer the
source schedules for the second attempt has delay
`2000 * 1.5 = 3000`, not `specBackoffDelay cfg0 2 = 4000`: the growth factor
is the hardcoded literal `1.5` of line 101, not configuration. -/
theorem c4_counterexample :
    ¬ ((attemptReconnection (attemptReconnection st0).1).2
        = [Effect.scheduleTimer 1 (specBackoffDelay cfg0 2)]) := by
  norm_num [attemptReconnection, st0, initManager, cfg0, specBackoffDelay]

/-- C4 (amended): every reconnection attempt `n` (1-based, here the
pre-state counter is `n - 1`) schedules its retry with delay
`baseDelay * 1.5 ^ (n - 1)`, where the base delay is taken from the
configuration (`reconnectDelay`) but the growth factor is the hardcoded
literal `1.5`. -/
theorem c4_backoff_delay (cfg : Config) (st : ManagerState)
    (hd : st.isDestroyed = false)
    (hlt : st.reconnectAttempts < st.maxReconnectAttempts) :
    (attemptReconnection st).2
      = [Effect.scheduleTimer st.nextTimerId
          (st.reconnectDelay * (3 / 2 : ℚ) ^ st.reconnectAttempts)]
    ∧ (attemptReconnection st).1.reconnectAttempts = st.reconnectAttempts + 1
    ∧ (initManager cfg true).reconnectDelay = cfg.reconnectDelay := by
  refine ⟨?_, ?_, rfl⟩ <;>
    simp [attemptReconnection, hd, Nat.not_le.mpr hlt]

/-- C4 witness: the first attempt of a fresh manager is scheduled at the
configured base delay, and the counter advances to 1. -/
theorem c4_backoff_delay_witness :
    (attemptReconnection st0).2 = [Effect.scheduleTimer 0 2000]
    ∧ (attemptReconnection st0).1.reconnectAttempts = 1
    ∧ (initManager cfg0 true).reconnectDelay = cfg0.reconnectDelay := by
  have h := c4_backoff_delay cfg0 st0 (by decide) (by decide)
  refine ⟨?_, h.2.1, h.2.2⟩
  rw [h.1]
  norm_num [st0, initManager, cfg0]

/-! ## Claim C5 — destroy, timer cancellation, and post-destroy silence -/

/-- What `destroy` leaves behind that matters for post-destroy silence. -/
def destroyedQuiet (st : ManagerState) : Prop :=
  st.isDestroyed = true ∧ st.stateChangeCallbacks = []
    ∧ st.errorCallbacks = []

theorem destroy_destroyedQuiet (st : ManagerState) :
    destroyedQuiet (destroy st).1 := by
  cases hr : st.reconnectTimer <;> cases hc : st.connectionTimer <;>
    simp [destroy, clearTimers, destroyedQuiet, hr, hc]

theorem fireTimer_destroyedQuiet (st : ManagerState) (t : Timer)
    (h : destroyedQuiet st) :
    destroyedQuiet (fireTimer st t).1
    ∧ ∀ e ∈ (fireTimer st t).2, isCallbackEffect e = false := by
  obtain ⟨h1, h2, h3⟩ := h
  by_cases hp : t ∈ st.pendingTimers
  · cases hk : t.kind <;>
      simp [fireTimer, hp, hk, reconnectTimerBody, h1, h2, h3,
        destroyedQuiet, isCallbackEffect]
  · simp [fireTimer, hp, destroyedQuiet, h1, h2, h3]

theorem fireTimers_destroyedQuiet (ts : List Timer) (st : ManagerState)
    (h : destroyedQuiet st) :
    ∀ e ∈ (fireTimers st ts).2, isCallbackEffect e = false := by
  induction ts generalizing st with
  | nil => simp [fireTimers]
  | cons t ts ih =>
    intro e he
    have step := fireTimer_destroyedQuiet st t h
    simp only [fireTimers, List.mem_append] at he
    rcases he with he | he
    · exact step.2 e he
    · exact ih (fireTimer st t).1 step.1 e he

/-- The manager right after the synchronous prefix of
`joinGame("Alice", "ABC123")` on a fresh instance: the anonymous 10-second
join timeout has been scheduled. -/
def stJoin : ManagerState := (joinGameStart st0 "Alice" "ABC123").1

/-- The same manager after `destroy()`. -/
def stJoinDestroyed : ManagerState := (destroy stJoin).1

/-- C5 counterexample: after `joinGame` schedules its connection-timeout
timer and `destroy()` runs, that timer is still pending — `destroy` cancels
only the timers tracked in `reconnectTimer`/`connectionTimer`, and the
join-game timeout (the anonymous `setTimeout` of line 599) is tracked in
neither, so not every pending connection-timeout timer is cancelled. -/
theorem c5_counterexample :
    stJoinDestroyed.isDestroyed = true
    ∧ stJoinDestroyed.pendingTimers =
        [{ id := 0, kind := TimerKind.joinTimeout, delay := 10000 }] := by
  constructor <;> rfl

/-- C5 (amended): `destroy()` clears the tracked reconnection-backoff and
connection-timeout timers, its own teardown invokes no subscriber callback,
and afterwards firing any sequence of timers — including ones whose
wall-clock delay elapses later, such as the uncancelled join-game timeout —
invokes zero `onStateChange`/`onError` callbacks. -/
theorem c5_destroy_silences_callbacks (st : ManagerState) (ts : List Timer) :
    (destroy st).1.reconnectTimer = none
    ∧ (destroy st).1.connectionTimer = none
    ∧ (∀ e ∈ (destroy st).2, isCallbackEffect e = false)
    ∧ (∀ e ∈ (fireTimers (destroy st).1 ts).2, isCallbackEffect e = false) := by
  refine ⟨?_, ?_, ?_, ?_⟩
  · cases hr : st.reconnectTimer <;> cases hc : st.connectionTimer <;>
      simp [destroy, clearTimers, hr, hc]
  · cases hr : st.reconnectTimer <;> cases hc : st.connectionTimer <;>
      simp [destroy, clearTimers, hr, hc]
  · cases hr : st.reconnectTimer <;> cases hc : st.connectionTimer <;>
      simp [destroy, clearTimers, hr, hc, isCallbackEffect]
  · exact fireTimers_destroyedQuiet ts (destroy st).1
      (destroy_destroyedQuiet st)

/-! ## Claim C6 — rejoin replay and attempt-counter reset -/

/-- A manager mid-reconnection: two attempts consumed, room code and player
name held, transport still down, no rejoin completed. -/
def stC6 : ManagerState :=
  { st0 with reconnectAttempts := 2
             currentRoomCode := "ABC123"
             playerName := "Alice"
             socketConnected := false }

/-- C6 counterexample: the `connect` transport handler alone — with no
rejoin involved — resets the attempt counter from 2 to 0 (line 166), so the
counter is not reset only upon rejoin success. -/
theorem c6_counterexample :
    stC6.reconnectAttempts = 2
    ∧ (onConnect stC6).1.reconnectAttempts = 0 := by
  constructor <;> rfl

/-- C6 (amended): during reconnection with a room code and player name held,
the backoff-timer body replays the original host/join intent (host replays
`hostGame`, player replays `joinGame`); the attempt counter is reset to zero
on rejoin success — but also by the bare transport `connect` event, before
any rejoin completes. -/
theorem c6_rejoin_replay_and_reset (st : ManagerState)
    (hd : st.isDestroyed = false)
    (hr : st.currentRoomCode ≠ "") (hp : st.playerName ≠ "") :
    Effect.replayIntent st.isHostPlayer st.playerName st.currentRoomCode
      ∈ (reconnectTimerBody st).2
    ∧ (rejoinRoomSuccess st).reconnectAttempts = 0
    ∧ (onConnect st).1.reconnectAttempts = 0 := by
  refine ⟨?_, rfl, ?_⟩
  · simp [reconnectTimerBody, updateGameState, hd, hr, hp]
  · have hclear := clearTimers_spec
      { st with connectionStatus := ConnStatus.connected,
                socketConnected := true, reconnectAttempts := 0 }
    simp only [onConnect, logNetworkMessage, updateGameState]
    simpa using hclear.2.2.2.2.2.2

/-- C6 witness: the amended theorem at the concrete mid-reconnection state. -/
theorem c6_rejoin_replay_and_reset_witness :
    Effect.replayIntent false "Alice" "ABC123" ∈ (reconnectTimerBody stC6).2
    ∧ (rejoinRoomSuccess stC6).reconnectAttempts = 0
    ∧ (onConnect stC6).1.reconnectAttempts = 0 := by
  have h := c6_rejoin_replay_and_reset stC6 (by decide) (by decide) (by decide)
  exact ⟨h.1, h.2.1, h.2.2⟩

/-! ## Claim C7 — join failures: RoomNotFound vs RoomFull -/

/-- C7 counterexample: when the server reports the room is full, `joinGame`
rejects with code `ROOM_NOT_FOUND`, not `ROOM_FULL` — the once-handler at
lines 581-589 wraps every server-reported join failure as `ROOM_NOT_FOUND`. -/
theorem c7_counterexample :
    (joinGameOnServerError st0 "Room is full").2 =
      [Effect.promiseReject (createGameError GameErrorCode.ROOM_NOT_FOUND
        "Room is full" true)]
    ∧ GameErrorCode.ROOM_NOT_FOUND ≠ GameErrorCode.ROOM_FULL := by
  exact ⟨rfl, by decide⟩

/-- C7 (amended): every server-reported `joinGame` failure — an unknown room
code and a full room alike — surfaces as a `ROOM_NOT_FOUND` error with
`recoverable = true`, carrying the server's message (or a fallback when that
message is empty); `ROOM_FULL` is never produced. -/
theorem c7_join_error_mapping (st : ManagerState) (msg : String) :
    (joinGameOnServerError st msg).2 =
      [Effect.promiseReject
        { code := GameErrorCode.ROOM_NOT_FOUND
          message := if msg = "" then "Failed to join room" else msg
          recoverable := true }] := by
  simp [joinGameOnServerError, createGameError]

/-! ## Claim C8 — startVoting guards -/

/-- C8: with the transport connected, a non-host caller of `startVoting`
gets an `UNAUTHORIZED_ACTION` error with `recoverable = false` delivered
locally to the error subscribers and no wire message; a caller without a
connected transport gets a `CONNECTION_LOST` error (which also kicks off
auto-recovery) and likewise no wire message. -/
theorem c8_startVoting_guards (st : ManagerState)
    (hthU : countFor st.errorCounts GameErrorCode.UNAUTHORIZED_ACTION
            < st.errorThrottleThreshold)
    (hthC : countFor st.errorCounts GameErrorCode.CONNECTION_LOST
            < st.errorThrottleThreshold) :
    (st.socketExists = true → st.socketConnected = true →
      st.isHostPlayer = false →
      (startVoting st).2 =
        st.errorCallbacks.map (fun i => Effect.errorCallback i
          (createGameError GameErrorCode.UNAUTHORIZED_ACTION
            "Cannot start voting: only host can start voting" false))
      ∧ (∀ t p, Effect.emit t p ∉ (startVoting st).2))
    ∧ (st.socketConnected = false →
      (startVoting st).2 =
        Effect.autoRecovery (createGameError GameErrorCode.CONNECTION_LOST
            "Cannot start voting: not connected to server" true)
          :: st.errorCallbacks.map (fun i => Effect.errorCallback i
              (createGameError GameErrorCode.CONNECTION_LOST
                "Cannot start voting: not connected to server" true))
      ∧ (∀ t p, Effect.emit t p ∉ (startVoting st).2)) := by
  constructor
  · intro hse hsc hhost
    have he := handleError_not_throttled st
      (createGameError GameErrorCode.UNAUTHORIZED_ACTION
        "Cannot start voting: only host can start voting" false)
      (by simpa [createGameError] using hthU)
    have heffs : (startVoting st).2 =
        st.errorCallbacks.map (fun i => Effect.errorCallback i
          (createGameError GameErrorCode.UNAUTHORIZED_ACTION
            "Cannot start voting: only host can start voting" false)) := by
      simp only [startVoting, hse, hsc, hhost]
      rw [if_pos trivial, he]
      simp [createGameError, autoRetryEligible]
    refine ⟨heffs, fun t p => ?_⟩
    rw [heffs]; simp
  · intro hsc
    have he := handleError_not_throttled st
      (createGameError GameErrorCode.CONNECTION_LOST
        "Cannot start voting: not connected to server" true)
      (by simpa [createGameError] using hthC)
    have heffs : (startVoting st).2 =
        Effect.autoRecovery (createGameError GameErrorCode.CONNECTION_LOST
            "Cannot start voting: not connected to server" true)
          :: st.errorCallbacks.map (fun i => Effect.errorCallback i
              (createGameError GameErrorCode.CONNECTION_LOST
                "Cannot start voting: not connected to server" true)) := by
      simp only [startVoting, hsc]
      rw [if_pos (by simp), he]
      simp [createGameError, autoRetryEligible]
    refine ⟨heffs, fun t p => ?_⟩
    rw [heffs]; simp

/-- Connected non-host manager with one error subscriber. -/
def stC8 : ManagerState := { stConn with isHostPlayer := false }

/-- C8 witness: a connected non-host caller gets the non-recoverable
`UNAUTHORIZED_ACTION` delivered to the one subscriber and emits nothing. -/
theorem c8_startVoting_guards_witness :
    (startVoting stC8).2 =
      [Effect.errorCallback 1
        (createGameError GameErrorCode.UNAUTHORIZED_ACTION
          "Cannot start voting: only host can start voting" false)]
    ∧ (∀ t p, Effect.emit t p ∉ (startVoting stC8).2) := by
  have h := (c8_startVoting_guards stC8 (by decide) (by decide)).1
    (by decide) (by decide) (by decide)
  exact ⟨by rw [h.1]; decide, h.2⟩

/-! ## Claim C9 — getCurrentPlayer resolution -/

/-- First roster entry named Bob. -/
def bobOne : Player :=
  { id := "p1", name := "Bob", isHost := true, isConnected := true,
    hasVoted := false, hasSubmittedDrawing := false, score := 0 }

/-- Second roster entry, also named Bob but a different identity. -/
def bobTwo : Player :=
  { id := "p2", name := "Bob", isHost := false, isConnected := true,
    hasVoted := true, hasSubmittedDrawing := false, score := 3 }

/-- Game state whose roster is the given player list. -/
def gsWithPlayers (ps : List Player) : GameState :=
  { createDefaultGameState ConnStatus.connected with players := ps }

/-- Local viewer named Bob, roster listing `bobOne` before `bobTwo`. -/
def stC9a : ManagerState :=
  { st0 with playerName := "Bob",
             gameState := some (gsWithPlayers [bobOne, bobTwo]) }

/-- Same viewer, the two same-named players in the opposite order. -/
def stC9b : ManagerState :=
  { st0 with playerName := "Bob",
             gameState := some (gsWithPlayers [bobTwo, bobOne]) }

/-- C9 counterexample: `getCurrentPlayer` resolves the local viewer by
display name (line 800), not by opaque id — with two players both named Bob
it returns whichever comes first in the roster, so the resolved identity
flips between `p1` and `p2` when the roster order flips, and two players
with colliding names are confused. -/
theorem c9_counterexample :
    getCurrentPlayer stC9a = some bobOne
    ∧ getCurrentPlayer stC9b = some bobTwo
    ∧ bobOne.id ≠ bobTwo.id := by
  refine ⟨rfl, rfl, by decide⟩

/-- C9 (amended): `getCurrentPlayer` is resolved by display name: whenever
it returns a player, that player is a roster member whose name equals the
locally stored `playerName` (the first such entry), so distinct players with
colliding display names can be confused. -/
theorem c9_getCurrentPlayer_by_name (st : ManagerState) (gs : GameState)
    (p : Player) (hgs : st.gameState = some gs) (hn : st.playerName ≠ "")
    (h : getCurrentPlayer st = some p) :
    p ∈ gs.players ∧ p.name = st.playerName := by
  unfold getCurrentPlayer at h
  rw [hgs] at h
  simp only [hn, if_false, ite_false] at h
  exact ⟨List.mem_of_find?_eq_some h, by simpa using List.find?_some h⟩

/-- C9 witness: the amended theorem at the concrete colliding-name roster. -/
theorem c9_getCurrentPlayer_by_name_witness :
    bobOne ∈ (gsWithPlayers [bobOne, bobTwo]).players
    ∧ bobOne.name = stC9a.playerName :=
  c9_getCurrentPlayer_by_name stC9a (gsWithPlayers [bobOne, bobTwo]) bobOne
    rfl (by decide) rfl

/-! ## Claim C10 — absent wordOptions skips vote validation -/

/-- C10: when the current game state is `null` or carries no `wordOptions`
field, `voteForWord` validates nothing: for every word, with the transport
connected, it raises no error (`lastError` unchanged, no error callback) and
emits exactly the `vote-word` message carrying the word. -/
theorem c10_vote_skips_validation (st : ManagerState) (w : String)
    (hse : st.socketExists = true) (hsc : st.socketConnected = true)
    (h : st.gameState = none
        ∨ ∃ gs, st.gameState = some gs ∧ gs.wordOptions = none) :
    (voteForWord st w).2 =
      [Effect.emit "vote-word"
        [("roomCode", st.currentRoomCode), ("word", w)]]
    ∧ (voteForWord st w).1.lastError = st.lastError := by
  have hval : (match st.gameState with
      | some gs =>
        match gs.wordOptions with
        | some opts => validateVote w opts
        | none => none
      | none => none) = (none : Option GameError) := by
    rcases h with h | ⟨gs, hgs, hopts⟩
    · rw [h]
    · rw [hgs]
      simp [hopts]
  constructor <;>
    simp [voteForWord, hse, hsc, hval, logNetworkMessage]

/-- Connected manager with no game state received yet. -/
def stC10 : ManagerState := { stConn with gameState := none }

/-- C10 witness: on a connected manager with no game state, voting for an
arbitrary word emits it unvalidated and raises nothing. -/
theorem c10_vote_skips_validation_witness :
    (voteForWord stC10 "zebra").2 =
      [Effect.emit "vote-word" [("roomCode", ""), ("word", "zebra")]]
    ∧ (voteForWord stC10 "zebra").1.lastError = none := by
  have h := c10_vote_skips_validation stC10 "zebra" (by decide) (by decide)
    (Or.inl rfl)
  exact ⟨by rw [h.1]; rfl, by rw [h.2]; rfl⟩

end Doodle
